import Mathlib

/-!
Shallow embedding of the stacker library (src/lib.rs), a manually
instrumented segmented-stack mechanism.

Addresses and sizes are natural numbers; Rust usize arithmetic is modelled
modulo 2 ^ ptrWidth (wrapping add and sub).  The thread-local STACK_LIMIT
cell becomes a one-field state record that the operations thread through
explicitly.  The user closure f is modelled by its observable behaviour:
its outcome (normal result or panic payload) and the number of stack bytes
it has consumed below the entry stack pointer at the point where it
observes remaining_stack.  The heap allocation performed by
Vec::with_capacity is modelled by a base address supplied as a parameter.
Each run also produces a list of events (allocation, limit writes, the
invocations of the __stacker_switch_stacks primitive, the catch_unwind
capture, the region free, the resume_unwind re-raise) so that ordering and
exactly-once properties can be stated.
-/

namespace Stacker

/-- Target architecture, identified by the bit width of usize. -/
structure Arch where
  ptrWidth : Nat
deriving DecidableEq

/-- Number of distinct usize values, 2 ^ ptrWidth. -/
def Arch.W (a : Arch) : Nat := 2 ^ a.ptrWidth

/-- The architecture-dependent entry-stack-pointer offset computed in
_grow_the_stack: 12 when target_pointer_width = "32", otherwise 0. -/
def Arch.offset (a : Arch) : Nat := if a.ptrWidth = 32 then 12 else 0

/-- Wrapping usize addition. -/
def usizeAdd (a : Arch) (x y : Nat) : Nat := (x + y) % a.W

/-- Wrapping usize subtraction. -/
def usizeSub (a : Arch) (x y : Nat) : Nat := (x + (a.W - y % a.W)) % a.W

/-- Thread-local state: the contents of the STACK_LIMIT cell. -/
structure State where
  stackLimit : Option Nat
deriving DecidableEq

/-- Read of the STACK_LIMIT cell (get_stack_limit in lib.rs). -/
def get_stack_limit (s : State) : Option Nat := s.stackLimit

/-- Write of the STACK_LIMIT cell (set_stack_limit in lib.rs); it always
stores a present value. -/
def set_stack_limit (l : Nat) (_s : State) : State := ⟨some l⟩

/-- remaining_stack from lib.rs: map the current limit, when present, to
the usize difference between the current stack pointer and the limit. -/
def remaining_stack (a : Arch) (sp : Nat) (s : State) : Option Nat :=
  (get_stack_limit s).map (fun limit => usizeSub a sp limit)

deriving instance DecidableEq for Except

/-- The caller's closure f, modelled by its observable behaviour: the
stack it has consumed below the entry stack pointer at its observation
point, and its outcome (ok value or panic payload). -/
structure Work (E R : Type) where
  usage : Nat
  out : Except E R

/-- Whether the closure panics (what catch_unwind will report). -/
def Work.panicked {E R : Type} (w : Work E R) : Bool :=
  match w.out with
  | Except.error _ => true
  | Except.ok _ => false

/-- Observable events of one maybe_grow run. -/
inductive Event where
  | alloc (base size : Nat)
  | setLimit (l : Nat)
  | switchTo (sp : Nat)
  | runWork
  | capture (panicked : Bool)
  | switchBack
  | free (base size : Nat)
  | reraise
deriving DecidableEq

/-- Whether an event is an invocation of the __stacker_switch_stacks
control-transfer primitive. -/
def Event.isSwitch : Event → Bool
  | Event.switchTo _ => true
  | _ => false

/-- Number of invocations of the control-transfer primitive in a trace. -/
def switchCount (evs : List Event) : Nat :=
  (evs.filter Event.isSwitch).length

/-- Whether an event is the resume_unwind re-raise on the original stack. -/
def Event.isReraise : Event → Bool
  | Event.reraise => true
  | _ => false

/-- Number of re-raise events in a trace. -/
def reraiseCount (evs : List Event) : Nat :=
  (evs.filter Event.isReraise).length

/-- The 16-byte rounding performed on the first line of _grow_the_stack:
(stack_size + 15) / 16 * 16 in usize arithmetic. -/
def roundSize (a : Arch) (stack_size : Nat) : Nat :=
  usizeAdd a stack_size 15 / 16 * 16

/-- Record of one _grow_the_stack invocation: its arguments, the values it
computes, the state in effect while the closure runs on the new stack, and
the state left behind after its final set_stack_limit. -/
structure GrowTrace where
  requestedSize : Nat
  remainingArg : Nat
  roundedSize : Nat
  base : Nat
  newLimit : Nat
  entrySp : Nat
  stateDuring : State
  finalState : State
deriving DecidableEq

/-- _grow_the_stack from lib.rs.  The parameter base is the address that
Vec::with_capacity returns for the rounded size; old_limit is the second
usize argument (at the call site grow_the_stack passes the measured
remaining bytes for it); panicked tells what the trampoline's
catch_unwind will capture.  Returns the trace record together with the
event list: the allocation, the set_stack_limit of the new limit, the
switch to the entry stack pointer, the closure run and its capture inside
the trampoline, the switch back, the final set_stack_limit(old_limit),
and the drop of the Vec when the function returns. -/
def _grow_the_stack (a : Arch) (base stack_size old_limit : Nat)
    (panicked : Bool) (s : State) : GrowTrace × List Event :=
  let stackSize := roundSize a stack_size
  let new_limit := usizeAdd a base (32 * 1024)
  let s1 := set_stack_limit new_limit s
  let entry := usizeSub a (usizeAdd a base stackSize) a.offset
  let s2 := set_stack_limit old_limit s1
  (⟨stack_size, old_limit, stackSize, base, new_limit, entry, s1, s2⟩,
   [Event.alloc base stackSize, Event.setLimit new_limit, Event.switchTo entry,
    Event.runWork, Event.capture panicked, Event.switchBack,
    Event.setLimit old_limit, Event.free base stackSize])

/-- Outcome of one maybe_grow call: the value returned (or panic
re-propagated) to the caller, the final thread state, the trace of the
stack switch when one happened, and the event list. -/
structure MgOutcome (E R : Type) where
  result : Except E R
  final : State
  grow? : Option GrowTrace
  events : List Event

/-- grow_the_stack from lib.rs: wraps the closure in catch_unwind inside
the trampoline, calls _grow_the_stack with the measured remaining bytes as
its old_limit argument, and afterwards either returns the captured value
or resume_unwinds the captured panic payload on the original stack. -/
def grow_the_stack {E R : Type} (a : Arch) (base stack_size : Nat)
    (w : Work E R) (remaining_stack_bytes : Nat) (s : State) : MgOutcome E R :=
  let g := _grow_the_stack a base stack_size remaining_stack_bytes w.panicked s
  { result := w.out
    final := g.1.finalState
    grow? := some g.1
    events := g.2 ++ (match w.out with
      | Except.error _ => [Event.reraise]
      | Except.ok _ => []) }

/-- maybe_grow from lib.rs: if a limit is present and the measured
remaining bytes are at least red_zone, run the closure directly; if they
are below red_zone, delegate to grow_the_stack; if no limit is present,
run the closure directly. -/
def maybe_grow {E R : Type} (a : Arch) (base red_zone stack_size : Nat)
    (w : Work E R) (sp : Nat) (s : State) : MgOutcome E R :=
  match remaining_stack a sp s with
  | some remaining_stack_bytes =>
    if remaining_stack_bytes ≥ red_zone then
      { result := w.out, final := s, grow? := none, events := [Event.runWork] }
    else
      grow_the_stack a base stack_size w remaining_stack_bytes s
  | none =>
    { result := w.out, final := s, grow? := none, events := [Event.runWork] }

/-- Stack pointer in effect inside the closure after it has consumed
usage bytes below the entry stack pointer. -/
def GrowTrace.insideSp (a : Arch) (t : GrowTrace) (usage : Nat) : Nat :=
  usizeSub a t.entrySp usage

/-- The value remaining_stack returns when observed from inside the
closure running on the new stack. -/
def GrowTrace.insideRemaining (a : Arch) (t : GrowTrace) (usage : Nat) : Option Nat :=
  remaining_stack a (GrowTrace.insideSp a t usage) t.stateDuring

/-- The usize value space is nonempty. -/
theorem Arch.W_pos (a : Arch) : 0 < a.W :=
  Nat.pos_pow_of_pos a.ptrWidth (by decide)

/-- Wrapping addition agrees with plain addition when no overflow occurs. -/
theorem usizeAdd_eq (a : Arch) {x y : Nat} (h : x + y < a.W) :
    usizeAdd a x y = x + y :=
  Nat.mod_eq_of_lt h

/-- Wrapping subtraction agrees with truncated subtraction when neither
underflow nor out-of-range inputs occur. -/
theorem usizeSub_eq (a : Arch) {x y : Nat} (hy : y ≤ x) (hx : x < a.W) :
    usizeSub a x y = x - y := by
  have hyW : y < a.W := Nat.lt_of_le_of_lt hy hx
  unfold usizeSub
  rw [Nat.mod_eq_of_lt hyW]
  have h1 : x + (a.W - y) = (x - y) + a.W := by omega
  rw [h1, Nat.add_mod_right]
  exact Nat.mod_eq_of_lt (by omega)

/-- The rounding in _grow_the_stack, without overflow. -/
theorem roundSize_eq (a : Arch) {s : Nat} (h : s + 15 < a.W) :
    roundSize a s = (s + 15) / 16 * 16 := by
  unfold roundSize
  rw [usizeAdd_eq a h]

/-- The rounded size is always a multiple of 16, wrap or no wrap. -/
theorem roundSize_dvd (a : Arch) (s : Nat) : 16 ∣ roundSize a s :=
  dvd_mul_left 16 (usizeAdd a s 15 / 16)

/-- C1: the claim fails on the code.  With prior limit 1000 and stack
pointer 5000, maybe_grow with red_zone 8192 switches stacks, and after it
returns the STACK_LIMIT holds 4000 — the remaining bytes measured at the
call site — rather than the prior value 1000; consequently remaining_stack
at the same stack pointer reads 4000 before the call but 1000 after it.
grow_the_stack passes remaining_stack_bytes where _grow_the_stack expects
its old_limit argument, so the final set_stack_limit(old_limit) stores the
measured remaining bytes instead of restoring the saved prior limit. -/
theorem C1_restore_bug :
    (maybe_grow ⟨64⟩ 100000 8192 65536 (⟨0, Except.ok 7⟩ : Work Nat Nat) 5000
        ⟨some 1000⟩).grow?.isSome = true ∧
    (maybe_grow ⟨64⟩ 100000 8192 65536 (⟨0, Except.ok 7⟩ : Work Nat Nat) 5000
        ⟨some 1000⟩).final.stackLimit = some 4000 ∧
    (some 4000 : Option Nat) ≠ some 1000 ∧
    remaining_stack ⟨64⟩ 5000 ⟨some 1000⟩ = some 4000 ∧
    remaining_stack ⟨64⟩ 5000
      (maybe_grow ⟨64⟩ 100000 8192 65536 (⟨0, Except.ok 7⟩ : Work Nat Nat) 5000
        ⟨some 1000⟩).final = some 1000 := by decide

/-- C5: on a thread whose Stack Limit is absent, remaining_stack returns
none, and maybe_grow runs the closure directly and returns its outcome for
every red_zone (including 0) and every stack_size, with no switch and no
state change. -/
theorem C5_absent_limit {E R : Type} (a : Arch) (base red_zone stack_size sp : Nat)
    (w : Work E R) :
    remaining_stack a sp ⟨none⟩ = none ∧
    maybe_grow a base red_zone stack_size w sp ⟨none⟩ =
      ⟨w.out, ⟨none⟩, none, [Event.runWork]⟩ :=
  ⟨rfl, rfl⟩

/-- C10: presence of the Stack Limit is invariant: set_stack_limit only
ever stores a present value, maybe_grow leaves the presence of the limit
unchanged (its switching path always writes present values and is
reachable only when the limit is present), remaining_stack is present
exactly when the limit is, and when the limit is absent maybe_grow never
installs one. -/
theorem C10_presence_stable {E R : Type} (a : Arch) (base red_zone stack_size sp l : Nat)
    (w : Work E R) (s : State) :
    (set_stack_limit l s).stackLimit.isSome = true ∧
    (maybe_grow a base red_zone stack_size w sp s).final.stackLimit.isSome
      = s.stackLimit.isSome ∧
    (remaining_stack a sp s).isSome = s.stackLimit.isSome ∧
    maybe_grow a base red_zone stack_size w sp ⟨none⟩ =
      ⟨w.out, ⟨none⟩, none, [Event.runWork]⟩ := by
  refine ⟨rfl, ?_, ?_, rfl⟩
  · rcases s with ⟨_ | limit⟩
    · rfl
    · by_cases hc : usizeSub a sp limit ≥ red_zone
      · simp [maybe_grow, remaining_stack, get_stack_limit, hc]
      · simp [maybe_grow, remaining_stack, get_stack_limit, hc, grow_the_stack,
          _grow_the_stack, set_stack_limit]
  · rcases s with ⟨_ | limit⟩ <;> simp [remaining_stack, get_stack_limit]

/-- C6 counterexample: the claim quantifies over every requested size, but
the rounding (stack_size + 15) / 16 * 16 is usize arithmetic: at the
requested size 2 ^ 64 - 1 (on 64-bit) the addition wraps and the Stack
Switcher computes a rounded allocation size of 0, which is smaller than
the requested size. -/
theorem C6_counterexample :
    ((maybe_grow ⟨64⟩ 100000 8192 (2 ^ 64 - 1) (⟨0, Except.ok 0⟩ : Work Nat Nat)
        5000 ⟨some 1000⟩).grow?.map GrowTrace.roundedSize) = some 0 ∧
    ¬ ((2 : Nat) ^ 64 - 1 ≤ 0) := by decide

/-- C6 amended: for every requested size whose rounding does not overflow
usize (stack_size + 15 < 2 ^ ptrWidth), the allocated region size computed
by _grow_the_stack is a multiple of 16, at least the requested size, and
less than the requested size plus 16. -/
theorem C6_alignment (a : Arch) (base stack_size old_limit : Nat) (p : Bool)
    (s : State) (h : stack_size + 15 < a.W) :
    16 ∣ (_grow_the_stack a base stack_size old_limit p s).1.roundedSize ∧
    stack_size ≤ (_grow_the_stack a base stack_size old_limit p s).1.roundedSize ∧
    (_grow_the_stack a base stack_size old_limit p s).1.roundedSize < stack_size + 16 := by
  have hr : (_grow_the_stack a base stack_size old_limit p s).1.roundedSize
      = (stack_size + 15) / 16 * 16 := by
    simp [_grow_the_stack, roundSize_eq a h]
  refine ⟨roundSize_dvd a stack_size, ?_⟩
  simp only [hr]
  omega

/-- Witness for C6_alignment at a concrete input. -/
theorem C6_alignment_witness :
    (65536 : Nat) + 15 < Arch.W ⟨64⟩ ∧
    (16 ∣ (_grow_the_stack ⟨64⟩ 100000 65536 4000 false ⟨some 1000⟩).1.roundedSize ∧
     65536 ≤ (_grow_the_stack ⟨64⟩ 100000 65536 4000 false ⟨some 1000⟩).1.roundedSize ∧
     (_grow_the_stack ⟨64⟩ 100000 65536 4000 false ⟨some 1000⟩).1.roundedSize < 65536 + 16) :=
  ⟨by decide, C6_alignment ⟨64⟩ 100000 65536 4000 false ⟨some 1000⟩ (by decide)⟩

/-- C3: with a present Stack Limit, maybe_grow runs the closure directly
(no switch, the control-transfer primitive is never invoked) exactly when
the measured remaining bytes are at least red_zone; otherwise it performs
exactly one switch, delegating to the Stack Switcher with stack_size and
the measured remaining bytes; in both cases it returns the closure's
outcome. -/
theorem C3_decision {E R : Type} (a : Arch) (base red_zone stack_size sp limit : Nat)
    (w : Work E R) (s : State) (hlim : s.stackLimit = some limit) :
    (maybe_grow a base red_zone stack_size w sp s).result = w.out ∧
    (maybe_grow a base red_zone stack_size w sp s).grow?.map GrowTrace.requestedSize
      = (if red_zone ≤ usizeSub a sp limit then none else some stack_size) ∧
    (maybe_grow a base red_zone stack_size w sp s).grow?.map GrowTrace.remainingArg
      = (if red_zone ≤ usizeSub a sp limit then none else some (usizeSub a sp limit)) ∧
    switchCount (maybe_grow a base red_zone stack_size w sp s).events
      = (if red_zone ≤ usizeSub a sp limit then 0 else 1) ∧
    (maybe_grow a base red_zone stack_size w sp s).final
      = (if red_zone ≤ usizeSub a sp limit then s else ⟨some (usizeSub a sp limit)⟩) := by
  have hrs : remaining_stack a sp s = some (usizeSub a sp limit) := by
    simp [remaining_stack, get_stack_limit, hlim]
  rcases s with ⟨sl⟩
  rcases w with ⟨u, e | r⟩ <;>
  · by_cases hc : red_zone ≤ usizeSub a sp limit
    · simp [maybe_grow, hrs, ge_iff_le, hc, switchCount, Event.isSwitch]
    · simp [maybe_grow, hrs, ge_iff_le, hc, grow_the_stack, _grow_the_stack,
        switchCount, Event.isSwitch, Work.panicked, set_stack_limit]

/-- Witness for C3_decision at a concrete switching input. -/
theorem C3_decision_witness :
    (State.stackLimit ⟨some 1000⟩ = some 1000) ∧
    ((maybe_grow ⟨64⟩ 100000 8192 65536 (⟨0, Except.ok 7⟩ : Work Nat Nat) 5000
        ⟨some 1000⟩).result = Except.ok 7 ∧
     (maybe_grow ⟨64⟩ 100000 8192 65536 (⟨0, Except.ok 7⟩ : Work Nat Nat) 5000
        ⟨some 1000⟩).grow?.map GrowTrace.requestedSize
       = (if 8192 ≤ usizeSub ⟨64⟩ 5000 1000 then none else some 65536) ∧
     (maybe_grow ⟨64⟩ 100000 8192 65536 (⟨0, Except.ok 7⟩ : Work Nat Nat) 5000
        ⟨some 1000⟩).grow?.map GrowTrace.remainingArg
       = (if 8192 ≤ usizeSub ⟨64⟩ 5000 1000 then none else some (usizeSub ⟨64⟩ 5000 1000)) ∧
     switchCount (maybe_grow ⟨64⟩ 100000 8192 65536 (⟨0, Except.ok 7⟩ : Work Nat Nat) 5000
        ⟨some 1000⟩).events
       = (if 8192 ≤ usizeSub ⟨64⟩ 5000 1000 then 0 else 1) ∧
     (maybe_grow ⟨64⟩ 100000 8192 65536 (⟨0, Except.ok 7⟩ : Work Nat Nat) 5000
        ⟨some 1000⟩).final
       = (if 8192 ≤ usizeSub ⟨64⟩ 5000 1000 then ⟨some 1000⟩ else ⟨some (usizeSub ⟨64⟩ 5000 1000)⟩)) :=
  ⟨rfl, C3_decision ⟨64⟩ 100000 8192 65536 5000 1000 (⟨0, Except.ok 7⟩ : Work Nat Nat)
    ⟨some 1000⟩ rfl⟩

/-- C7: for every stack switch, the limit installed for the duration of
the switched-to execution is the region's lowest address plus exactly
32 KiB, whatever the requested stack size (universally quantified here)
and independent of any red zone. -/
theorem C7_guard (a : Arch) (base stack_size old_limit : Nat) (p : Bool) (s : State)
    (h : base + 32 * 1024 < a.W) :
    (_grow_the_stack a base stack_size old_limit p s).1.newLimit = base + 32 * 1024 ∧
    (_grow_the_stack a base stack_size old_limit p s).1.stateDuring.stackLimit
      = some (base + 32 * 1024) := by
  constructor <;> simp [_grow_the_stack, set_stack_limit, usizeAdd_eq a h]

/-- Witness for C7_guard at a concrete input. -/
theorem C7_guard_witness :
    (100000 : Nat) + 32 * 1024 < Arch.W ⟨64⟩ ∧
    ((_grow_the_stack ⟨64⟩ 100000 65536 4000 false ⟨some 1000⟩).1.newLimit
       = 100000 + 32 * 1024 ∧
     (_grow_the_stack ⟨64⟩ 100000 65536 4000 false ⟨some 1000⟩).1.stateDuring.stackLimit
       = some (100000 + 32 * 1024)) :=
  ⟨by decide, C7_guard ⟨64⟩ 100000 65536 4000 false ⟨some 1000⟩ (by decide)⟩

/-- C8: whenever the limit is present with value limit (and the stack
pointer is a valid address at or above it), remaining_stack returns
exactly the stack pointer minus the limit; when the limit is absent it
returns none; and the number of stack switches maybe_grow performs is
decided by comparing precisely this quantity with red_zone. -/
theorem C8_remaining {E R : Type} (a : Arch) (base red_zone stack_size sp limit : Nat)
    (w : Work E R) (s : State) (hlim : s.stackLimit = some limit)
    (hle : limit ≤ sp) (hsp : sp < a.W) :
    remaining_stack a sp s = some (sp - limit) ∧
    remaining_stack a sp ⟨none⟩ = none ∧
    switchCount (maybe_grow a base red_zone stack_size w sp s).events
      = (if red_zone ≤ sp - limit then 0 else 1) := by
  have h1 : usizeSub a sp limit = sp - limit := usizeSub_eq a hle hsp
  have hrs : remaining_stack a sp s = some (sp - limit) := by
    simp [remaining_stack, get_stack_limit, hlim, h1]
  refine ⟨hrs, rfl, ?_⟩
  rcases w with ⟨u, e | r⟩ <;>
  · by_cases hc : red_zone ≤ sp - limit
    · simp [maybe_grow, hrs, ge_iff_le, hc, switchCount, Event.isSwitch]
    · simp [maybe_grow, hrs, ge_iff_le, hc, grow_the_stack, _grow_the_stack,
        switchCount, Event.isSwitch, Work.panicked]

/-- Witness for C8_remaining at a concrete input. -/
theorem C8_remaining_witness :
    (State.stackLimit ⟨some 1000⟩ = some 1000 ∧ (1000 : Nat) ≤ 5000 ∧
      (5000 : Nat) < Arch.W ⟨64⟩) ∧
    (remaining_stack ⟨64⟩ 5000 ⟨some 1000⟩ = some (5000 - 1000) ∧
     remaining_stack ⟨64⟩ 5000 ⟨none⟩ = none ∧
     switchCount (maybe_grow ⟨64⟩ 100000 8192 65536 (⟨0, Except.ok 7⟩ : Work Nat Nat)
        5000 ⟨some 1000⟩).events = (if 8192 ≤ 5000 - 1000 then 0 else 1)) :=
  ⟨⟨rfl, by decide, by decide⟩,
   C8_remaining ⟨64⟩ 100000 8192 65536 5000 1000 (⟨0, Except.ok 7⟩ : Work Nat Nat)
     ⟨some 1000⟩ rfl (by decide) (by decide)⟩

/-- C9: for every stack switch (with the allocation inside the address
space and no underflow), the entry stack pointer handed to the
control-transfer primitive is the region's one-past-highest address
(lowest address plus rounded size) minus the architecture offset, the
offset is exactly 12 on 32-bit pointer width and exactly 0 on other
widths, and on 32-bit targets (with a 16-byte-aligned allocation base)
the entry stack pointer is 16-byte aligned again after the primitive
pushes its 4-byte argument. -/
theorem C9_entry (a : Arch) (base stack_size old_limit : Nat) (p : Bool) (s : State)
    (hfit : base + roundSize a stack_size < a.W)
    (hoff : a.offset ≤ base + roundSize a stack_size) :
    (_grow_the_stack a base stack_size old_limit p s).1.entrySp
      = base + roundSize a stack_size - a.offset ∧
    a.offset = (if a.ptrWidth = 32 then 12 else 0) ∧
    (if a.ptrWidth = 32 ∧ 16 ∣ base ∧ 16 ≤ base + roundSize a stack_size
     then 16 ∣ (base + roundSize a stack_size - a.offset - 4)
     else True) := by
  refine ⟨?_, rfl, ?_⟩
  · simp [_grow_the_stack, usizeAdd_eq a hfit, usizeSub_eq a hoff hfit]
  · by_cases hcond : a.ptrWidth = 32 ∧ 16 ∣ base ∧ 16 ≤ base + roundSize a stack_size
    · rw [if_pos hcond]
      obtain ⟨h32, hb, hge⟩ := hcond
      have hoffeq : a.offset = 12 := by simp [Arch.offset, h32]
      rw [hoffeq]
      have h16 : 16 ∣ base + roundSize a stack_size :=
        dvd_add hb (roundSize_dvd a stack_size)
      have hrw : base + roundSize a stack_size - 12 - 4
          = base + roundSize a stack_size - 16 := by omega
      rw [hrw]
      exact Nat.dvd_sub' h16 (dvd_refl 16)
    · rw [if_neg hcond]
      trivial

/-- Witness for C9_entry at a concrete 32-bit input. -/
theorem C9_entry_witness :
    ((1600 : Nat) + roundSize ⟨32⟩ 65536 < Arch.W ⟨32⟩ ∧
      Arch.offset ⟨32⟩ ≤ 1600 + roundSize ⟨32⟩ 65536) ∧
    ((_grow_the_stack ⟨32⟩ 1600 65536 4000 false ⟨some 1000⟩).1.entrySp
       = 1600 + roundSize ⟨32⟩ 65536 - Arch.offset ⟨32⟩ ∧
     Arch.offset ⟨32⟩ = (if Arch.ptrWidth ⟨32⟩ = 32 then 12 else 0) ∧
     (if Arch.ptrWidth ⟨32⟩ = 32 ∧ 16 ∣ (1600 : Nat) ∧ 16 ≤ 1600 + roundSize ⟨32⟩ 65536
      then 16 ∣ (1600 + roundSize ⟨32⟩ 65536 - Arch.offset ⟨32⟩ - 4)
      else True)) :=
  ⟨⟨by decide, by decide⟩,
   C9_entry ⟨32⟩ 1600 65536 4000 false ⟨some 1000⟩ (by decide) (by decide)⟩

/-- C2 counterexample: the claim quantifies over every red_zone and
stack_size, but with red_zone = 2 ^ 64 - 1 and stack_size = 4096 the call
switches (the measured remaining 4000 is below red_zone), and the
remaining_stack observed from inside the closure on the new stack is
2 ^ 64 - 28672 — the wrapped usize difference between the entry stack
pointer (base + 4096) and the installed limit (base + 32 KiB) — which is
smaller than red_zone: the code cannot guarantee red_zone bytes of
headroom when the requested stack is too small for the red zone plus the
32 KiB guard. -/
theorem C2_counterexample :
    ((maybe_grow ⟨64⟩ 100000 (2 ^ 64 - 1) 4096 (⟨0, Except.ok 0⟩ : Work Nat Nat)
        5000 ⟨some 1000⟩).grow?.map (fun t => GrowTrace.insideRemaining ⟨64⟩ t 0))
      = some (some (2 ^ 64 - 28672)) ∧
    2 ^ 64 - 28672 < 2 ^ 64 - 1 := by decide

/-- C2 amended: on a switching call, provided the rounded stack size is at
least red_zone plus the 32 KiB guard plus the architecture offset plus the
closure's stack usage at its observation point, and the allocated region
lies inside the address space, the remaining_stack observed from inside
the closure is present and at least red_zone. -/
theorem C2_headroom {E R : Type} (a : Arch) (base red_zone stack_size sp limit : Nat)
    (w : Work E R) (s : State) (hlim : s.stackLimit = some limit)
    (hsw : usizeSub a sp limit < red_zone)
    (hfit : base + roundSize a stack_size < a.W)
    (hsize : red_zone + 32 * 1024 + a.offset + w.usage ≤ roundSize a stack_size) :
    ((maybe_grow a base red_zone stack_size w sp s).grow?.map
        (fun t => GrowTrace.insideRemaining a t w.usage))
      = some (some (roundSize a stack_size - a.offset - w.usage - 32 * 1024)) ∧
    red_zone ≤ roundSize a stack_size - a.offset - w.usage - 32 * 1024 := by
  have hrs : remaining_stack a sp s = some (usizeSub a sp limit) := by
    simp [remaining_stack, get_stack_limit, hlim]
  have hneg : ¬ (usizeSub a sp limit ≥ red_zone) := by omega
  have hA : usizeAdd a base (roundSize a stack_size) = base + roundSize a stack_size :=
    usizeAdd_eq a hfit
  have hB : usizeAdd a base (32 * 1024) = base + 32 * 1024 :=
    usizeAdd_eq a (by omega)
  have hC : usizeSub a (base + roundSize a stack_size) a.offset
      = base + roundSize a stack_size - a.offset :=
    usizeSub_eq a (by omega) hfit
  have hD : usizeSub a (base + roundSize a stack_size - a.offset) w.usage
      = base + roundSize a stack_size - a.offset - w.usage :=
    usizeSub_eq a (by omega) (by omega)
  have hE : usizeSub a (base + roundSize a stack_size - a.offset - w.usage)
      (base + 32 * 1024)
      = roundSize a stack_size - a.offset - w.usage - 32 * 1024 := by
    rw [usizeSub_eq a (by omega) (by omega)]
    omega
  have hmg : (maybe_grow a base red_zone stack_size w sp s).grow?
      = some (_grow_the_stack a base stack_size (usizeSub a sp limit) w.panicked s).1 := by
    simp only [maybe_grow, hrs]
    rw [if_neg hneg]
    rfl
  refine ⟨?_, by omega⟩
  rw [hmg]
  simp [GrowTrace.insideRemaining, GrowTrace.insideSp, _grow_the_stack,
    remaining_stack, get_stack_limit, set_stack_limit, hA, hB, hC, hD, hE]

/-- Witness for C2_headroom at a concrete input. -/
theorem C2_headroom_witness :
    (State.stackLimit ⟨some 1000⟩ = some 1000 ∧
     usizeSub ⟨64⟩ 5000 1000 < 8192 ∧
     (100000 : Nat) + roundSize ⟨64⟩ 65536 < Arch.W ⟨64⟩ ∧
     (8192 : Nat) + 32 * 1024 + Arch.offset ⟨64⟩
       + Work.usage (⟨16, Except.ok 3⟩ : Work Nat Nat) ≤ roundSize ⟨64⟩ 65536) ∧
    (((maybe_grow ⟨64⟩ 100000 8192 65536 (⟨16, Except.ok 3⟩ : Work Nat Nat) 5000
        ⟨some 1000⟩).grow?.map
          (fun t => GrowTrace.insideRemaining ⟨64⟩ t
            (Work.usage (⟨16, Except.ok 3⟩ : Work Nat Nat))))
       = some (some (roundSize ⟨64⟩ 65536 - Arch.offset ⟨64⟩
           - Work.usage (⟨16, Except.ok 3⟩ : Work Nat Nat) - 32 * 1024)) ∧
     (8192 : Nat) ≤ roundSize ⟨64⟩ 65536 - Arch.offset ⟨64⟩
       - Work.usage (⟨16, Except.ok 3⟩ : Work Nat Nat) - 32 * 1024) :=
  ⟨⟨rfl, by decide, by decide, by decide⟩,
   C2_headroom ⟨64⟩ 100000 8192 65536 5000 1000 (⟨16, Except.ok 3⟩ : Work Nat Nat)
     ⟨some 1000⟩ rfl (by decide) (by decide) (by decide)⟩

/-- C4 counterexample: with prior limit 1000, stack pointer 5000 and
red_zone 8192, a switching maybe_grow whose closure panics with payload 42
does re-raise the panic exactly once as its outcome, but the Stack Limit
is not restored: after the call it holds 4000 (the remaining bytes
measured at the call site) instead of the prior 1000, so the claim's
clause that the failure is re-raised only after the Stack Limit has been
restored fails — the prior limit is never restored at all. -/
theorem C4_counterexample :
    (maybe_grow ⟨64⟩ 100000 8192 65536 (⟨0, Except.error 42⟩ : Work Nat Nat) 5000
        ⟨some 1000⟩).result = Except.error 42 ∧
    reraiseCount (maybe_grow ⟨64⟩ 100000 8192 65536
        (⟨0, Except.error 42⟩ : Work Nat Nat) 5000 ⟨some 1000⟩).events = 1 ∧
    (maybe_grow ⟨64⟩ 100000 8192 65536 (⟨0, Except.error 42⟩ : Work Nat Nat) 5000
        ⟨some 1000⟩).final.stackLimit = some 4000 ∧
    (some 4000 : Option Nat) ≠ some 1000 := by decide

/-- C4 amended: for every closure that panics inside a switching
maybe_grow call, the panic is captured inside the trampoline (the capture
event lies between the switch-to and the switch-back), never unwinds
across the stack switch, and is re-raised exactly once to the caller on
the original stack as the call's outcome, strictly after the region's
free and after the final Stack-Limit write — which, due to the restore
slip, stores the measured remaining bytes rather than the prior limit;
no failure from the closure is swallowed.  The full event list exhibits
the ordering and the exactly-once re-raise. -/
theorem C4_panic {E R : Type} (a : Arch) (base red_zone stack_size sp limit usage : Nat)
    (e : E) (s : State) (hlim : s.stackLimit = some limit)
    (hsw : usizeSub a sp limit < red_zone) :
    (maybe_grow a base red_zone stack_size (⟨usage, Except.error e⟩ : Work E R) sp s).result
      = Except.error e ∧
    (maybe_grow a base red_zone stack_size (⟨usage, Except.error e⟩ : Work E R) sp s).events
      = [Event.alloc base (roundSize a stack_size),
         Event.setLimit (usizeAdd a base (32 * 1024)),
         Event.switchTo (usizeSub a (usizeAdd a base (roundSize a stack_size)) a.offset),
         Event.runWork, Event.capture true, Event.switchBack,
         Event.setLimit (usizeSub a sp limit),
         Event.free base (roundSize a stack_size), Event.reraise] ∧
    (maybe_grow a base red_zone stack_size (⟨usage, Except.error e⟩ : Work E R) sp s).final
      = ⟨some (usizeSub a sp limit)⟩ := by
  have hrs : remaining_stack a sp s = some (usizeSub a sp limit) := by
    simp [remaining_stack, get_stack_limit, hlim]
  have hneg : ¬ (usizeSub a sp limit ≥ red_zone) := by omega
  refine ⟨?_, ?_, ?_⟩ <;>
    simp [maybe_grow, hrs, hneg, grow_the_stack, _grow_the_stack, Work.panicked,
      set_stack_limit]

/-- Witness for C4_panic at a concrete input. -/
theorem C4_panic_witness :
    (State.stackLimit ⟨some 1000⟩ = some 1000 ∧ usizeSub ⟨64⟩ 5000 1000 < 8192) ∧
    ((maybe_grow ⟨64⟩ 100000 8192 65536 (⟨0, Except.error 42⟩ : Work Nat Nat) 5000
        ⟨some 1000⟩).result = Except.error 42 ∧
     (maybe_grow ⟨64⟩ 100000 8192 65536 (⟨0, Except.error 42⟩ : Work Nat Nat) 5000
        ⟨some 1000⟩).events
       = [Event.alloc 100000 (roundSize ⟨64⟩ 65536),
          Event.setLimit (usizeAdd ⟨64⟩ 100000 (32 * 1024)),
          Event.switchTo (usizeSub ⟨64⟩ (usizeAdd ⟨64⟩ 100000 (roundSize ⟨64⟩ 65536))
            (Arch.offset ⟨64⟩)),
          Event.runWork, Event.capture true, Event.switchBack,
          Event.setLimit (usizeSub ⟨64⟩ 5000 1000),
          Event.free 100000 (roundSize ⟨64⟩ 65536), Event.reraise] ∧
     (maybe_grow ⟨64⟩ 100000 8192 65536 (⟨0, Except.error 42⟩ : Work Nat Nat) 5000
        ⟨some 1000⟩).final = ⟨some (usizeSub ⟨64⟩ 5000 1000)⟩) :=
  ⟨⟨rfl, by decide⟩,
   C4_panic ⟨64⟩ 100000 8192 65536 5000 1000 0 42 ⟨some 1000⟩ rfl (by decide)⟩

end Stacker
